import Mathlib

/-!
A shallow embedding of the multi-tenant retrieval-augmented-QA service in
`backend/chat_service.py` (class `ChatService`), together with theorems about
its document classifier, page estimator, citation builder, knowledge-gap
detector, query orchestrator and per-tenant state handling.

Python strings are embedded as `String`, Python floats that only ever hold the
fixed constants 0.0 / 0.3 / 0.8 / 0.9 or a provider-supplied relevance score
as `Rat`, Python dicts as association lists with first-occurrence lookup, and
the external collaborators (the md5 hex digest and the LlamaIndex
retrieval-and-generation engine) as explicit parameters / oracle arguments.
-/

/-! ### String helpers: Python `needle in haystack` and `str.lower()` -/

/-- `leadsWith p l` is true when `p` is a prefix of the character list `l`
(the character-list form of Python string slicing used for containment). -/
def leadsWith : List Char → List Char → Bool
  | [], _ => true
  | _ :: _, [] => false
  | a :: as, b :: bs => a = b && leadsWith as bs

/-- `isSubOf needle haystack`: `needle` occurs as a contiguous run in
`haystack`; the embedding of Python's `needle in haystack` on strings. -/
def isSubOf (needle : List Char) : List Char → Bool
  | [] => needle.isEmpty
  | b :: bs => leadsWith needle (b :: bs) || isSubOf needle bs

/-- Python `needle in haystack` for strings. -/
def strContainsSub (haystack needle : String) : Bool :=
  isSubOf needle.data haystack.data

/-- Python `str.lower()` (per-character lowering). -/
def lowerStr (s : String) : String :=
  ⟨s.data.map Char.toLower⟩

/-- Python `any(word in s for word in words)`. -/
def containsAnyOf (s : String) (words : List String) : Bool :=
  words.any (fun w => strContainsSub s w)

/-! ### Data model (`backend/models.py`) -/

/-- `models.Citation`. -/
structure Citation where
  document : String
  page : Nat
  document_type : String
  confidence : Rat
deriving DecidableEq, Repr

/-- `models.QueryResponse`. -/
structure QueryResponse where
  answer : String
  citations : List Citation
  confidence : Rat
  has_knowledge_gap : Bool
  suggestions : Option (List String)
deriving DecidableEq, Repr

/-- `models.DocumentInfo` (field `status` defaults to `"ready"`). -/
structure DocumentInfo where
  id : String
  name : String
  type : String
  pages : Nat
  status : String := "ready"
deriving DecidableEq, Repr

/-! ### Classifier, page estimator, gap detector (pure methods) -/

/-- `ChatService.detect_document_type`. -/
def detect_document_type (filename : String) (content : String) : String :=
  let name := lowerStr filename
  let content_lower := lowerStr content
  if containsAnyOf name ["policy", "procedure", "rule"] then "Policy"
  else if containsAnyOf name ["handbook", "manual", "guide"] then "Handbook"
  else if containsAnyOf name ["finance", "financial", "budget", "revenue"] then "Finance"
  else if containsAnyOf content_lower ["loan", "credit", "lending"] then "Policy"
  else if containsAnyOf content_lower ["onboard", "training", "employee"] then "Handbook"
  else "Document"

/-- `ChatService.estimate_pages`: `max(1, len(content) // 2000)`. -/
def estimate_pages (content : String) : Nat :=
  max 1 (content.length / 2000)

/-- The fixed gap-indicator substrings scanned for in the answer. -/
def gap_indicators : List String :=
  ["don\x27t have information", "not found", "no information", "unable to find"]

/-- `ChatService.detect_knowledge_gap`: returns `(has_gap, suggestions)`. -/
def detect_knowledge_gap (question : String) (answer : String) : Bool × List String :=
  let question_lower := lowerStr question
  let answer_lower := lowerStr answer
  let has_gap := gap_indicators.any (fun ind => strContainsSub answer_lower ind)
  let suggestions :=
    if containsAnyOf question_lower ["loan", "credit", "lending"] then
      ["Loan Policy Document", "Credit Guidelines", "Lending Procedures"]
    else if containsAnyOf question_lower ["onboard", "training", "employee"] then
      ["Employee Handbook", "Training Manual", "HR Policies"]
    else if containsAnyOf question_lower ["finance", "revenue", "cac", "budget"] then
      ["Financial Reports", "Budget Documents", "Growth Metrics"]
    else if containsAnyOf question_lower ["customer", "client", "acquisition"] then
      ["Customer Data", "Sales Reports", "Marketing Analytics"]
    else
      ["Business Documents", "Policy Manual", "Operational Guidelines"]
  (has_gap, suggestions)

/-! ### Retrieval results and citation extraction -/

/-- A retrieval hit (a LlamaIndex source node): its text, the metadata fields
`extract_citations` reads (each may be absent from the metadata dict), and the
optional relevance score (`hasattr(node, 'score')`). -/
structure SourceNode where
  text : String
  filename : Option String
  document_type : Option String
  pages : Option Nat
  score : Option Rat
deriving DecidableEq, Repr

/-- The citation built from one retrieval hit: the body of the loop in
`ChatService.extract_citations` (`metadata.get` defaults, the per-fragment
page estimate `min(pages, max(1, len(node.text) // 500))`, and the 0.8
default for a missing score). -/
def buildCitation (node : SourceNode) : Citation :=
  { document := node.filename.getD "Unknown"
    page := min (node.pages.getD 1) (max 1 (node.text.length / 500))
    document_type := node.document_type.getD "Document"
    confidence := node.score.getD (8 / 10 : Rat) }

/-- `ChatService.extract_citations`: one citation per source node, in order. -/
def extract_citations (source_nodes : List SourceNode) (_tenant_id : String) :
    List Citation :=
  source_nodes.map buildCitation

/-! ### Per-tenant state (`ChatService.__init__`) and the dict operations -/

/-- Python dict lookup `d[k]` / `k in d`, on an association list with the
first occurrence of a key authoritative. -/
def dictLookup (k : String) : List (String × α) → Option α
  | [] => none
  | (k', v) :: rest => if k' = k then some v else dictLookup k rest

/-- Python dict assignment `d[k] = v`: replace the value at `k` in place, or
add `k` at the end when absent (Python dicts keep insertion order). -/
def dictSet (k : String) (v : α) : List (String × α) → List (String × α)
  | [] => [(k, v)]
  | (k', v') :: rest =>
      if k' = k then (k', v) :: rest else (k', v') :: dictSet k v rest

/-- In-place mutation of the value stored at `k` (the embedding of
`d[k].insert(...)` / `d[k].append(...)`); no-op when `k` is absent. -/
def dictModify (k : String) (f : α → α) : List (String × α) → List (String × α)
  | [] => []
  | (k', v) :: rest =>
      if k' = k then (k', f v) :: rest else (k', v) :: dictModify k f rest

/-- One document as stored in a tenant's `VectorStoreIndex`: the raw text
plus the metadata bundle built by `upload_document`. -/
structure IndexedDoc where
  text : String
  filename : String
  document_type : String
  tenant_id : String
  doc_id : String
  pages : Nat
deriving DecidableEq, Repr

/-- The mutable state of `ChatService`: `tenant_indices` (each tenant's
semantic index, embedded as its list of inserted documents) and
`tenant_documents` (each tenant's catalog of `DocumentInfo`). -/
structure ChatState where
  tenant_indices : List (String × List IndexedDoc)
  tenant_documents : List (String × List DocumentInfo)
deriving DecidableEq, Repr

/-- The state of a freshly constructed `ChatService`: both dicts empty. -/
def ChatState.init : ChatState := ⟨[], []⟩

/-! ### Ingestion (`ChatService.upload_document`) -/

/-- The string that is hashed for the document id:
`f"{tenant_id}_{filename}"`. -/
def preHashKey (tenant_id : String) (filename : String) : String :=
  tenant_id ++ "_" ++ filename

/-- `hashlib.md5(...).hexdigest()[:8]` applied to `preHashKey`; `md5hex`
stands for the external md5 hex digest (an arbitrary fixed function of the
hashed string). -/
def doc_id_of (md5hex : String → String) (tenant_id : String) (filename : String) :
    String :=
  (md5hex (preHashKey tenant_id filename)).take 8

/-- `ChatService.upload_document`. `insertOk` says whether the provider-level
`index.insert(document)` call succeeds; when it fails (raises), the method
returns no `DocumentInfo` (the exception propagates to the caller) and the
catalog append is never reached, but the dict entries created for a new
tenant before the insert remain. -/
def upload_document (md5hex : String → String) (s : ChatState)
    (tenant_id : String) (filename : String) (content : String)
    (insertOk : Bool) : Option DocumentInfo × ChatState :=
  let doc_id := doc_id_of md5hex tenant_id filename
  let doc_type := detect_document_type filename content
  let pages := estimate_pages content
  let document : IndexedDoc :=
    { text := content, filename := filename, document_type := doc_type
      tenant_id := tenant_id, doc_id := doc_id, pages := pages }
  let s1 : ChatState :=
    if (dictLookup tenant_id s.tenant_indices).isSome then s
    else
      { tenant_indices := dictSet tenant_id [] s.tenant_indices
        tenant_documents := dictSet tenant_id [] s.tenant_documents }
  if insertOk then
    let s2 : ChatState :=
      { s1 with tenant_indices := dictModify tenant_id (· ++ [document]) s1.tenant_indices }
    let doc_info : DocumentInfo :=
      { id := doc_id, name := filename, type := doc_type, pages := pages }
    let s3 : ChatState :=
      { s2 with tenant_documents := dictModify tenant_id (· ++ [doc_info]) s2.tenant_documents }
    (some doc_info, s3)
  else
    (none, s1)

/-! ### Query (`ChatService.query`) and listing (`ChatService.get_documents`) -/

/-- Outcome of the external retrieval-and-generation call
(`query_engine.query(question)`): either the generated answer text together
with the retrieved source nodes, or a raised error with its message. -/
inductive ProviderOutcome where
  | ok (answer : String) (source_nodes : List SourceNode)
  | err (msg : String)
deriving DecidableEq, Repr

/-- The fixed response returned when the tenant has no entry in
`tenant_indices`. -/
def noDocumentsResponse : QueryResponse :=
  { answer := "I don\x27t have any documents to search. Please upload your business documents first."
    citations := []
    confidence := 0
    has_knowledge_gap := true
    suggestions := some ["Business Documents", "Policy Manual"] }

/-- `ChatService.query`. The provider call is the only fallible step inside
the `try` block (citation extraction and gap detection are total), so its
outcome is passed in as `outcome`. -/
def query (s : ChatState) (tenant_id : String) (question : String)
    (outcome : ProviderOutcome) : QueryResponse :=
  if (dictLookup tenant_id s.tenant_indices).isSome then
    match outcome with
    | .ok answer source_nodes =>
        let citations := extract_citations source_nodes tenant_id
        let gap := detect_knowledge_gap question answer
        let confidence : Rat :=
          if citations ≠ [] ∧ answer.length > 50 then 9 / 10 else 3 / 10
        { answer := answer
          citations := citations
          confidence := confidence
          has_knowledge_gap := gap.1
          suggestions := if gap.1 then some gap.2 else none }
    | .err msg =>
        { answer := "I encountered an error while searching your documents: " ++ msg
          citations := []
          confidence := 0
          has_knowledge_gap := true
          suggestions := some ["Please try rephrasing your question"] }
  else
    noDocumentsResponse

/-- `ChatService.get_documents`: `self.tenant_documents.get(tenant_id, [])`. -/
def get_documents (s : ChatState) (tenant_id : String) : List DocumentInfo :=
  (dictLookup tenant_id s.tenant_documents).getD []

/-! ### Traces of service operations -/

/-- One request served by the shared `ChatService` instance. -/
inductive Op where
  | upload (tenant_id : String) (filename : String) (content : String) (insertOk : Bool)
  | ask (tenant_id : String) (question : String) (outcome : ProviderOutcome)
deriving DecidableEq, Repr

/-- The tenant an operation acts for. -/
def Op.tenant : Op → String
  | .upload t _ _ _ => t
  | .ask t _ _ => t

/-- Run a trace of operations against the service state. `query` and
`get_documents` never write the state, so only uploads thread it. -/
def runOps (md5hex : String → String) : ChatState → List Op → ChatState
  | s, [] => s
  | s, .upload t f c ok :: rest => runOps md5hex (upload_document md5hex s t f c ok).2 rest
  | s, .ask _ _ _ :: rest => runOps md5hex s rest

/-- A corpus exists for a tenant iff the tenant has an entry in
`tenant_indices` (this is exactly the `tenant_id not in self.tenant_indices`
test `query` performs). -/
def corpusExists (s : ChatState) (tenant_id : String) : Bool :=
  (dictLookup tenant_id s.tenant_indices).isSome

/-- A trace contains a successful ingestion for `t`. -/
def successfulIngestionFor (t : String) (trace : List Op) : Bool :=
  trace.any (fun op =>
    match op with
    | .upload t' _ _ ok => t' = t && ok
    | .ask _ _ _ => false)

/-- A trace contains an ingestion attempt (successful or not) for `t`. -/
def ingestionAttemptFor (t : String) (trace : List Op) : Bool :=
  trace.any (fun op =>
    match op with
    | .upload t' _ _ _ => t' = t
    | .ask _ _ _ => false)

/-- The `(filename, content)` pairs of the successful uploads a trace
performs for tenant `t`, in order. -/
def successfulUploadsFor (t : String) : List Op → List (String × String)
  | [] => []
  | .upload t' f c ok :: rest =>
      if t' = t ∧ ok = true then (f, c) :: successfulUploadsFor t rest
      else successfulUploadsFor t rest
  | .ask _ _ _ :: rest => successfulUploadsFor t rest

/-- The catalog record a successful upload of `(filename, content)` for
tenant `t` produces (the `DocumentInfo` literal in `upload_document`). -/
def docInfoOf (md5hex : String → String) (t : String) (f : String) (c : String) :
    DocumentInfo :=
  { id := doc_id_of md5hex t f
    name := f
    type := detect_document_type f c
    pages := estimate_pages c }

/-- The two dicts of a `ChatState` have entries for the same tenants.
Every state reachable from `ChatState.init` satisfies this, because
`upload_document` creates the entries in both dicts together. -/
def coherent (s : ChatState) : Prop :=
  ∀ t, (dictLookup t s.tenant_indices).isSome
        = (dictLookup t s.tenant_documents).isSome

/-! ### Helper lemmas about the dict operations -/

theorem dictLookup_dictSet_self (k : String) (v : α) (d : List (String × α)) :
    dictLookup k (dictSet k v d) = some v := by
  induction d with
  | nil => simp [dictSet, dictLookup]
  | cons hd tl ih =>
      obtain ⟨k', v'⟩ := hd
      by_cases h : k' = k
      · simp [dictSet, dictLookup, h]
      · simp [dictSet, dictLookup, h, ih]

theorem dictLookup_dictSet_ne {k' k : String} (h : k' ≠ k) (v : α)
    (d : List (String × α)) :
    dictLookup k (dictSet k' v d) = dictLookup k d := by
  induction d with
  | nil => simp [dictSet, dictLookup, h]
  | cons hd tl ih =>
      obtain ⟨k'', v''⟩ := hd
      by_cases h2 : k'' = k'
      · subst h2
        simp [dictSet, dictLookup, h]
      · simp only [dictSet, if_neg h2]
        by_cases h3 : k'' = k
        · simp [dictLookup, h3]
        · simp [dictLookup, h3, ih]

theorem dictLookup_dictModify_self (k : String) (f : α → α)
    (d : List (String × α)) :
    dictLookup k (dictModify k f d) = (dictLookup k d).map f := by
  induction d with
  | nil => simp [dictModify, dictLookup]
  | cons hd tl ih =>
      obtain ⟨k', v'⟩ := hd
      by_cases h : k' = k
      · simp [dictModify, dictLookup, h]
      · simp [dictModify, dictLookup, h, ih]

theorem dictLookup_dictModify_ne {k' k : String} (h : k' ≠ k) (f : α → α)
    (d : List (String × α)) :
    dictLookup k (dictModify k' f d) = dictLookup k d := by
  induction d with
  | nil => simp [dictModify, dictLookup]
  | cons hd tl ih =>
      obtain ⟨k'', v''⟩ := hd
      by_cases h2 : k'' = k'
      · subst h2
        simp [dictModify, dictLookup, h, if_neg h]
      · simp only [dictModify, if_neg h2]
        by_cases h3 : k'' = k
        · simp [dictLookup, h3]
        · simp [dictLookup, h3, ih]

/-! ### Helper lemmas about ingestion and traces -/

theorem upload_document_lookup_ne (md5hex : String → String) (s : ChatState)
    (t f c : String) (ok : Bool) {t2 : String} (h : t ≠ t2) :
    dictLookup t2 (upload_document md5hex s t f c ok).2.tenant_indices
      = dictLookup t2 s.tenant_indices ∧
    dictLookup t2 (upload_document md5hex s t f c ok).2.tenant_documents
      = dictLookup t2 s.tenant_documents := by
  unfold upload_document
  by_cases hmem : (dictLookup t s.tenant_indices).isSome <;>
    cases ok <;>
      simp [hmem, dictLookup_dictSet_ne h, dictLookup_dictModify_ne h]

theorem corpusExists_upload_self (md5hex : String → String) (s : ChatState)
    (t f c : String) (ok : Bool) :
    corpusExists (upload_document md5hex s t f c ok).2 t = true := by
  unfold corpusExists upload_document
  by_cases hmem : (dictLookup t s.tenant_indices).isSome <;>
    cases ok <;>
      simp [hmem, dictLookup_dictSet_self, dictLookup_dictModify_self,
        Option.isSome_iff_exists]

theorem runOps_lookup_frame (md5hex : String → String) (s : ChatState)
    (trace : List Op) {t2 : String} (h : ∀ op ∈ trace, Op.tenant op ≠ t2) :
    dictLookup t2 (runOps md5hex s trace).tenant_indices
      = dictLookup t2 s.tenant_indices ∧
    dictLookup t2 (runOps md5hex s trace).tenant_documents
      = dictLookup t2 s.tenant_documents := by
  induction trace generalizing s with
  | nil => exact ⟨rfl, rfl⟩
  | cons op rest ih =>
      have hop : Op.tenant op ≠ t2 := h op (List.mem_cons_self op rest)
      have hrest : ∀ op ∈ rest, Op.tenant op ≠ t2 :=
        fun o ho => h o (List.mem_cons_of_mem op ho)
      cases op with
      | upload t f c ok =>
          have hstep := upload_document_lookup_ne md5hex s t f c ok hop
          have := ih (upload_document md5hex s t f c ok).2 hrest
          exact ⟨this.1.trans hstep.1, this.2.trans hstep.2⟩
      | ask t q outcome => exact ih s hrest

theorem corpusExists_runOps (md5hex : String → String) (s : ChatState)
    (trace : List Op) (t : String) :
    corpusExists (runOps md5hex s trace) t
      = (corpusExists s t || ingestionAttemptFor t trace) := by
  induction trace generalizing s with
  | nil => simp [runOps, ingestionAttemptFor]
  | cons op rest ih =>
      cases op with
      | upload t' f c ok =>
          by_cases ht : t' = t
          · subst ht
            simp only [runOps, ih, ingestionAttemptFor, List.any_cons]
            have := corpusExists_upload_self md5hex s t' f c ok
            simp [this, ingestionAttemptFor]
          · have hstep := (upload_document_lookup_ne md5hex s t' f c ok ht).1
            simp only [runOps, ih, ingestionAttemptFor, List.any_cons]
            simp [corpusExists, hstep, ht, ingestionAttemptFor]
      | ask t' q outcome =>
          simp [runOps, ih, ingestionAttemptFor]

theorem coherent_init : coherent ChatState.init := by
  intro t
  rfl

theorem upload_document_coherent (md5hex : String → String) (s : ChatState)
    (hc : coherent s) (t f c : String) (ok : Bool) :
    coherent (upload_document md5hex s t f c ok).2 := by
  intro t2
  by_cases ht : t = t2
  · subst ht
    unfold upload_document
    by_cases hmem : (dictLookup t s.tenant_indices).isSome
    · obtain ⟨vi, hvi⟩ := Option.isSome_iff_exists.mp hmem
      obtain ⟨vd, hvd⟩ := Option.isSome_iff_exists.mp (by rw [← hc t]; exact hmem)
      cases ok <;> simp [hmem, hvi, hvd, dictLookup_dictModify_self]
    · cases ok <;>
        simp [hmem, dictLookup_dictSet_self, dictLookup_dictModify_self]
  · have hstep := upload_document_lookup_ne md5hex s t f c ok ht
    rw [hstep.1, hstep.2]
    exact hc t2

theorem upload_get_documents_self (md5hex : String → String) (s : ChatState)
    (t : String)
    (hcoh : (dictLookup t s.tenant_indices).isSome
              = (dictLookup t s.tenant_documents).isSome)
    (f c : String) (ok : Bool) :
    get_documents (upload_document md5hex s t f c ok).2 t
      = if ok then get_documents s t ++ [docInfoOf md5hex t f c]
        else get_documents s t := by
  unfold get_documents upload_document docInfoOf
  by_cases hmem : (dictLookup t s.tenant_indices).isSome
  · obtain ⟨vd, hvd⟩ := Option.isSome_iff_exists.mp (by rw [← hcoh]; exact hmem)
    cases ok <;> simp [hmem, hvd, dictLookup_dictModify_self]
  · have hdoc : dictLookup t s.tenant_documents = none := by
      rw [← Option.not_isSome_iff_eq_none, ← hcoh]
      exact hmem
    cases ok <;>
      simp [hmem, hdoc, dictLookup_dictSet_self, dictLookup_dictModify_self]

theorem get_documents_runOps (md5hex : String → String) (trace : List Op) :
    ∀ (s : ChatState), coherent s → ∀ t,
      get_documents (runOps md5hex s trace) t
        = get_documents s t
            ++ (successfulUploadsFor t trace).map (fun p => docInfoOf md5hex t p.1 p.2) := by
  induction trace with
  | nil =>
      intro s _ t
      simp [runOps, successfulUploadsFor]
  | cons op rest ih =>
      intro s hc t
      cases op with
      | upload t' f c ok =>
          have hc' := upload_document_coherent md5hex s hc t' f c ok
          have hrec := ih _ hc' t
          by_cases ht : t' = t
          · subst ht
            have hstep := upload_get_documents_self md5hex s t' (hc t') f c ok
            rw [runOps, hrec, hstep]
            cases ok <;> simp [successfulUploadsFor]
          · have hstep := (upload_document_lookup_ne md5hex s t' f c ok ht).2
            rw [runOps, hrec]
            simp [get_documents, hstep, successfulUploadsFor, ht]
      | ask t' q outcome =>
          rw [runOps]
          simpa [successfulUploadsFor] using ih s hc t

/-! ### Lower-casing preserves substring containment -/

theorem leadsWith_map (f : Char → Char) :
    ∀ (p l : List Char), leadsWith p l = true → leadsWith (p.map f) (l.map f) = true
  | [], _, _ => rfl
  | _ :: _, [], h => by simp [leadsWith] at h
  | a :: as, b :: bs, h => by
      simp only [leadsWith, Bool.and_eq_true, decide_eq_true_eq] at h
      simp only [List.map, leadsWith, Bool.and_eq_true, decide_eq_true_eq]
      exact ⟨congrArg f h.1, leadsWith_map f as bs h.2⟩

theorem isSubOf_map (f : Char → Char) :
    ∀ (n l : List Char), isSubOf n l = true → isSubOf (n.map f) (l.map f) = true
  | n, [], h => by
      simp only [isSubOf, List.isEmpty_iff] at h
      subst h
      rfl
  | n, b :: bs, h => by
      simp only [isSubOf, Bool.or_eq_true] at h
      rcases h with h1 | h2
      · have := leadsWith_map f n (b :: bs) h1
        simp only [List.map, isSubOf, Bool.or_eq_true]
        exact Or.inl (by simpa using this)
      · simp only [List.map, isSubOf, Bool.or_eq_true]
        exact Or.inr (isSubOf_map f n bs h2)

theorem strContainsSub_lowerStr {s w : String} (hw : lowerStr w = w)
    (h : strContainsSub s w = true) :
    strContainsSub (lowerStr s) w = true := by
  have hw' : w.data.map Char.toLower = w.data := congrArg String.data hw
  have hm := isSubOf_map Char.toLower w.data s.data h
  rw [hw'] at hm
  exact hm

/-! ### Claim theorems -/

/-- C1: for every tenant with no corpus (no entry in `tenant_indices`),
`query` returns, for every question and any provider outcome, exactly the
fixed "no documents" response: the fixed answer text, no citations,
confidence 0, `has_knowledge_gap = true` and suggestions
`["Business Documents", "Policy Manual"]`. -/
theorem C1_no_corpus_fixed_response (s : ChatState) (tenant_id question : String)
    (outcome : ProviderOutcome)
    (h : dictLookup tenant_id s.tenant_indices = none) :
    query s tenant_id question outcome
      = { answer := "I don\x27t have any documents to search. Please upload your business documents first."
          citations := []
          confidence := 0
          has_knowledge_gap := true
          suggestions := some ["Business Documents", "Policy Manual"] } := by
  simp [query, h, noDocumentsResponse]

theorem C1_no_corpus_fixed_response_witness :
    query ChatState.init "t1" "What is our leave policy?" (.ok "answer" [])
      = { answer := "I don\x27t have any documents to search. Please upload your business documents first."
          citations := []
          confidence := 0
          has_knowledge_gap := true
          suggestions := some ["Business Documents", "Policy Manual"] } :=
  C1_no_corpus_fixed_response ChatState.init "t1" "What is our leave policy?"
    (.ok "answer" []) rfl

/-- C3: for every tenant that has a corpus, a provider error during the
query is recovered (never propagated): the response is the error preamble
followed by the error message, no citations, confidence 0,
`has_knowledge_gap = true`, suggestions `["Please try rephrasing your question"]`. -/
theorem C3_provider_failure_recovered (s : ChatState)
    (tenant_id question msg : String)
    (h : (dictLookup tenant_id s.tenant_indices).isSome = true) :
    query s tenant_id question (.err msg)
      = { answer := "I encountered an error while searching your documents: " ++ msg
          citations := []
          confidence := 0
          has_knowledge_gap := true
          suggestions := some ["Please try rephrasing your question"] } := by
  simp [query, h]

theorem C3_provider_failure_recovered_witness :
    query ⟨[("t1", [])], [("t1", [])]⟩ "t1" "any question" (.err "boom")
      = { answer := "I encountered an error while searching your documents: " ++ "boom"
          citations := []
          confidence := 0
          has_knowledge_gap := true
          suggestions := some ["Please try rephrasing your question"] } :=
  C3_provider_failure_recovered ⟨[("t1", [])], [("t1", [])]⟩ "t1" "any question"
    "boom" rfl

/-- C4: on the normal query path the returned confidence is 9/10 exactly
when the citation list is non-empty and the answer is strictly longer than
50 characters, and 3/10 otherwise; in particular an answer of length
exactly 50 yields 3/10 even with citations present. -/
theorem C4_confidence_heuristic (s : ChatState) (tenant_id question : String)
    (answer : String) (source_nodes : List SourceNode)
    (h : (dictLookup tenant_id s.tenant_indices).isSome = true) :
    ((extract_citations source_nodes tenant_id ≠ [] ∧ answer.length > 50) →
        (query s tenant_id question (.ok answer source_nodes)).confidence = 9 / 10) ∧
    ((extract_citations source_nodes tenant_id = [] ∨ answer.length ≤ 50) →
        (query s tenant_id question (.ok answer source_nodes)).confidence = 3 / 10) ∧
    (answer.length = 50 →
        (query s tenant_id question (.ok answer source_nodes)).confidence = 3 / 10) := by
  have hconf : (query s tenant_id question (.ok answer source_nodes)).confidence
      = if extract_citations source_nodes tenant_id ≠ [] ∧ answer.length > 50
        then (9 / 10 : Rat) else 3 / 10 := by
    simp [query, h]
  refine ⟨fun hc => ?_, fun hc => ?_, fun hl => ?_⟩
  · rw [hconf, if_pos hc]
  · rw [hconf, if_neg ?_]
    rcases hc with hc | hc
    · exact fun hx => hx.1 hc
    · exact fun hx => absurd hx.2 (not_lt.mpr hc)
  · rw [hconf, if_neg ?_]
    exact fun hx => by omega

theorem C4_confidence_heuristic_witness :
    (query ⟨[("t1", [])], [("t1", [])]⟩ "t1" "q"
        (.ok (String.mk (List.replicate 50 'a'))
          [⟨"text", some "f.txt", some "Policy", some 1, some (1 / 2)⟩])).confidence
      = 3 / 10 :=
  (C4_confidence_heuristic ⟨[("t1", [])], [("t1", [])]⟩ "t1" "q"
      (String.mk (List.replicate 50 'a'))
      [⟨"text", some "f.txt", some "Policy", some 1, some (1 / 2)⟩] rfl).2.2
    (by decide)

/-- C10: the document id derivation is not injective in
`(tenant_id, filename)` even before hash truncation: the distinct pairs
`("a_b", "c")` and `("a", "b_c")` have equal joined pre-hash strings
`"{tenant_id}_{filename}"`, so they receive the same 8-character document
id for any hash function. -/
theorem C10_doc_id_collision (md5hex : String → String) :
    (("a_b", "c") : String × String) ≠ ("a", "b_c") ∧
    preHashKey "a_b" "c" = preHashKey "a" "b_c" ∧
    doc_id_of md5hex "a_b" "c" = doc_id_of md5hex "a" "b_c" := by
  have hp : preHashKey "a_b" "c" = preHashKey "a" "b_c" := by decide
  refine ⟨by decide, hp, ?_⟩
  unfold doc_id_of
  rw [hp]

/-- C5: `detect_document_type` (total and deterministic by construction)
follows exactly the six-rule, first-match-wins, case-insensitive substring
priority order: filename policy/procedure/rule → "Policy", then filename
handbook/manual/guide → "Handbook", then filename
finance/financial/budget/revenue → "Finance", then content
loan/credit/lending → "Policy", then content onboard/training/employee →
"Handbook", else "Document"; in particular every filename containing
"policy" classifies as "Policy" for every content. -/
theorem C5_classifier_priority (filename content : String) :
    (containsAnyOf (lowerStr filename) ["policy", "procedure", "rule"] = true →
        detect_document_type filename content = "Policy") ∧
    (containsAnyOf (lowerStr filename) ["policy", "procedure", "rule"] = false →
      containsAnyOf (lowerStr filename) ["handbook", "manual", "guide"] = true →
        detect_document_type filename content = "Handbook") ∧
    (containsAnyOf (lowerStr filename) ["policy", "procedure", "rule"] = false →
      containsAnyOf (lowerStr filename) ["handbook", "manual", "guide"] = false →
      containsAnyOf (lowerStr filename) ["finance", "financial", "budget", "revenue"] = true →
        detect_document_type filename content = "Finance") ∧
    (containsAnyOf (lowerStr filename) ["policy", "procedure", "rule"] = false →
      containsAnyOf (lowerStr filename) ["handbook", "manual", "guide"] = false →
      containsAnyOf (lowerStr filename) ["finance", "financial", "budget", "revenue"] = false →
      containsAnyOf (lowerStr content) ["loan", "credit", "lending"] = true →
        detect_document_type filename content = "Policy") ∧
    (containsAnyOf (lowerStr filename) ["policy", "procedure", "rule"] = false →
      containsAnyOf (lowerStr filename) ["handbook", "manual", "guide"] = false →
      containsAnyOf (lowerStr filename) ["finance", "financial", "budget", "revenue"] = false →
      containsAnyOf (lowerStr content) ["loan", "credit", "lending"] = false →
      containsAnyOf (lowerStr content) ["onboard", "training", "employee"] = true →
        detect_document_type filename content = "Handbook") ∧
    (containsAnyOf (lowerStr filename) ["policy", "procedure", "rule"] = false →
      containsAnyOf (lowerStr filename) ["handbook", "manual", "guide"] = false →
      containsAnyOf (lowerStr filename) ["finance", "financial", "budget", "revenue"] = false →
      containsAnyOf (lowerStr content) ["loan", "credit", "lending"] = false →
      containsAnyOf (lowerStr content) ["onboard", "training", "employee"] = false →
        detect_document_type filename content = "Document") ∧
    (strContainsSub filename "policy" = true →
        detect_document_type filename content = "Policy") := by
  refine ⟨?_, ?_, ?_, ?_, ?_, ?_, ?_⟩
  · intro h1
    simp [detect_document_type, h1]
  · intro h1 h2
    simp [detect_document_type, h1, h2]
  · intro h1 h2 h3
    simp [detect_document_type, h1, h2, h3]
  · intro h1 h2 h3 h4
    simp [detect_document_type, h1, h2, h3, h4]
  · intro h1 h2 h3 h4 h5
    simp [detect_document_type, h1, h2, h3, h4, h5]
  · intro h1 h2 h3 h4 h5
    simp [detect_document_type, h1, h2, h3, h4, h5]
  · intro h
    have hlow : strContainsSub (lowerStr filename) "policy" = true :=
      strContainsSub_lowerStr (by decide) h
    have hany : containsAnyOf (lowerStr filename) ["policy", "procedure", "rule"] = true := by
      simp [containsAnyOf, hlow]
    simp [detect_document_type, hany]

theorem C5_classifier_priority_witness :
    detect_document_type "policy_doc.txt" "anything" = "Policy" :=
  (C5_classifier_priority "policy_doc.txt" "anything").2.2.2.2.2.2 (by decide)

/-- C9 as stated is false: the suggestion keyword groups are checked
first-match-wins and the loan/credit/lending group precedes the
onboard/training/employee group, so the question "loan training" — whose
lower-cased text contains "training" — receives the loan suggestions, not
["Employee Handbook", "Training Manual", "HR Policies"]. -/
theorem C9_counterexample :
    strContainsSub (lowerStr "loan training") "training" = true ∧
    (detect_knowledge_gap "loan training" "some answer").2
      = ["Loan Policy Document", "Credit Guidelines", "Lending Procedures"] ∧
    (detect_knowledge_gap "loan training" "some answer").2
      ≠ ["Employee Handbook", "Training Manual", "HR Policies"] := by
  refine ⟨by decide, by decide, by decide⟩

/-- C9 amended: for every question whose lower-cased text contains
"training" and contains none of the earlier loan-group keywords "loan",
"credit", "lending", `detect_knowledge_gap` returns suggestions equal
exactly to ["Employee Handbook", "Training Manual", "HR Policies"], for
every answer text. -/
theorem C9_training_suggestions (question answer : String)
    (htr : strContainsSub (lowerStr question) "training" = true)
    (hno : containsAnyOf (lowerStr question) ["loan", "credit", "lending"] = false) :
    (detect_knowledge_gap question answer).2
      = ["Employee Handbook", "Training Manual", "HR Policies"] := by
  have hany : containsAnyOf (lowerStr question) ["onboard", "training", "employee"] = true := by
    simp [containsAnyOf, htr]
  simp [detect_knowledge_gap, hno, hany]

theorem C9_training_suggestions_witness :
    (detect_knowledge_gap "Where is the TRAINING schedule?" "an answer").2
      = ["Employee Handbook", "Training Manual", "HR Policies"] :=
  C9_training_suggestions "Where is the TRAINING schedule?" "an answer"
    (by decide) (by decide)

/-- C2: cross-tenant isolation. An upload for tenant `t1` leaves every
other tenant `t2`'s index and catalog entries untouched; a query for `t1`
reads nothing but `t1`'s own index entry (its result is unchanged by any
difference in the rest of the state); and over every trace of operations
from the initial state, `t2`'s document listing consists exactly of the
records of `t2`'s own successful uploads, in order — so a document
ingested for `t1` never appears in `get_documents` for `t2`. -/
theorem C2_cross_tenant_isolation (md5hex : String → String) (t1 t2 : String)
    (hne : t1 ≠ t2) :
    (∀ (s : ChatState) (f c : String) (ok : Bool),
        dictLookup t2 (upload_document md5hex s t1 f c ok).2.tenant_indices
          = dictLookup t2 s.tenant_indices ∧
        dictLookup t2 (upload_document md5hex s t1 f c ok).2.tenant_documents
          = dictLookup t2 s.tenant_documents) ∧
    (∀ (s s' : ChatState) (question : String) (outcome : ProviderOutcome),
        dictLookup t1 s.tenant_indices = dictLookup t1 s'.tenant_indices →
        query s t1 question outcome = query s' t1 question outcome) ∧
    (∀ trace : List Op,
        get_documents (runOps md5hex ChatState.init trace) t2
          = (successfulUploadsFor t2 trace).map
              (fun p => docInfoOf md5hex t2 p.1 p.2)) := by
  refine ⟨fun s f c ok => upload_document_lookup_ne md5hex s t1 f c ok hne, ?_, ?_⟩
  · intro s s' question outcome hlook
    unfold query
    rw [hlook]
  · intro trace
    have h := get_documents_runOps md5hex trace ChatState.init coherent_init t2
    simpa [get_documents, ChatState.init, dictLookup] using h

theorem C2_cross_tenant_isolation_witness :
    get_documents (runOps (fun _ => "") ChatState.init
        [.upload "t1" "a.txt" "body" true]) "t2" = [] := by
  have h := (C2_cross_tenant_isolation (fun _ => "") "t1" "t2"
      (by decide)).2.2 [.upload "t1" "a.txt" "body" true]
  exact h.trans rfl

/-- C8 as stated is false: `upload_document` creates the tenant's (empty)
index and catalog entries before the provider-level insert, so an
ingestion whose index insert fails leaves a corpus behind for a previously
corpus-less tenant even though no successful ingestion has occurred for
it. -/
theorem C8_counterexample :
    corpusExists (runOps (fun _ => "") ChatState.init
        [.upload "t1" "f.txt" "content" false]) "t1" = true ∧
    successfulIngestionFor "t1" [.upload "t1" "f.txt" "content" false] = false := by
  refine ⟨by decide, by decide⟩

/-- C8 amended: over every trace of operations from the initial state, a
corpus exists for a tenant iff at least one ingestion has been attempted
for that tenant — successful or not: a failed index insert for a fresh
tenant leaves an (empty) corpus behind rather than rolling it back. -/
theorem C8_corpus_iff_ingestion_attempt (md5hex : String → String)
    (trace : List Op) (t : String) :
    corpusExists (runOps md5hex ChatState.init trace) t
      = ingestionAttemptFor t trace := by
  have h := corpusExists_runOps md5hex ChatState.init trace t
  simpa [corpusExists, ChatState.init, dictLookup] using h

/-- C6: `extract_citations` returns exactly one citation per fragment,
preserving order, each built by the per-fragment formula: document name
defaulting to "Unknown", and page `min(pageCount, max(1, len(text) //
500))`; whenever the fragment's page-count metadata is at least 1 (as it
is for every ingested document, and for the default), the citation's page
is at least 1 and at most that page count. -/
theorem C6_citation_pages (source_nodes : List SourceNode) (tenant_id : String) :
    extract_citations source_nodes tenant_id = source_nodes.map buildCitation ∧
    (∀ node : SourceNode,
        buildCitation node
          = { document := node.filename.getD "Unknown"
              page := min (node.pages.getD 1) (max 1 (node.text.length / 500))
              document_type := node.document_type.getD "Document"
              confidence := node.score.getD (8 / 10 : Rat) }) ∧
    (∀ node ∈ source_nodes, 1 ≤ node.pages.getD 1 →
        1 ≤ (buildCitation node).page ∧
          (buildCitation node).page ≤ node.pages.getD 1) := by
  refine ⟨rfl, fun node => rfl, fun node _ hpage => ?_⟩
  unfold buildCitation
  exact ⟨le_min hpage (le_max_left _ _), min_le_left _ _⟩

theorem C6_citation_pages_witness :
    1 ≤ (buildCitation ⟨"abc", none, none, none, none⟩).page ∧
    (buildCitation ⟨"abc", none, none, none, none⟩).page
      ≤ (⟨"abc", none, none, none, none⟩ : SourceNode).pages.getD 1 :=
  (C6_citation_pages [⟨"abc", none, none, none, none⟩] "t1").2.2
    ⟨"abc", none, none, none, none⟩ (by simp) (by decide)

/-- C7: a fragment that carries no relevance score yields a citation with
confidence exactly 8/10 (not 0); a fragment carrying a score keeps that
score as the citation confidence. -/
theorem C7_missing_score_defaults (source_nodes : List SourceNode)
    (tenant_id : String) :
    extract_citations source_nodes tenant_id = source_nodes.map buildCitation ∧
    (∀ node : SourceNode, node.score = none →
        (buildCitation node).confidence = 8 / 10) ∧
    (∀ (node : SourceNode) (sc : Rat), node.score = some sc →
        (buildCitation node).confidence = sc) := by
  refine ⟨rfl, fun node h => ?_, fun node sc h => ?_⟩ <;>
    simp [buildCitation, h]

theorem C7_missing_score_defaults_witness :
    (buildCitation ⟨"abc", none, none, none, none⟩).confidence = 8 / 10 :=
  (C7_missing_score_defaults [⟨"abc", none, none, none, none⟩] "t1").2.1
    ⟨"abc", none, none, none, none⟩ rfl
